import Mathlib

/-!
Verification development for the polarsview repository.

The repository code (src/data.rs, src/layout.rs, src/traits.rs, src/lib.rs,
src/components.rs) is shallowly embedded below.  External library
functionality (the polars CSV/parquet engines, the SQL evaluator, shell
expansion, the metadata reader, the oneshot channel contents) is abstracted
as explicit function parameters; the repository-level control flow around
those calls is translated faithfully.
-/

namespace PolarsView

/-! ### Data model

A cell of a data frame column is an optional integer value; `none` models a
polars null.  For the sort engine only the orderable key column matters, so
rows carry a list of cells and the frame records the column names.  -/

/-- One cell of the sort-relevant column view: `none` is a polars null. -/
abbrev Cell := Option Int

/-- A row, as the list of its cells (one per column). -/
abbrev Row := List Cell

/-- Embedding of a polars `DataFrame`: ordered column names plus rows. -/
structure DataFrame where
  cols : List String
  rows : List Row
deriving Repr, DecidableEq

/-- Embedding of `DataFrame::width` (number of columns). -/
def DataFrame.width (df : DataFrame) : Nat := df.cols.length

/-- Embedding of `DataFrame::height` (number of rows). -/
def DataFrame.height (df : DataFrame) : Nat := df.rows.length

/-- Embedding of `SortState` from src/data.rs. -/
inductive SortState where
  | NotSorted (col : String)
  | Ascending (col : String)
  | Descending (col : String)
deriving Repr, DecidableEq

/-- Embedding of `DataFilters` from src/data.rs. -/
structure DataFilters where
  filename : Option String
  table_name : Option String
  csv_delimiter : Option String
  query : Option String
  sort : Option SortState
deriving Repr, DecidableEq

/-- Embedding of `Default for DataFilters` (all fields `None`). -/
def DataFilters.default : DataFilters :=
  { filename := none, table_name := none, csv_delimiter := none,
    query := none, sort := none }

/-- First entry of the `SQL_COMMANDS` array from src/sqls.rs (the source
array has twelve entries; `DataFilters::new` uses index 0). -/
def sqlCommandsHead : String := "SELECT * FROM AllData;"

/-- Embedding of `DataFilters::new` from src/data.rs. -/
def DataFilters.new (filename : String) : DataFilters :=
  { filename := some filename, table_name := some "AllData",
    csv_delimiter := some ";", query := some sqlCommandsHead, sort := none }

/-- Embedding of `DataFrameContainer` from src/data.rs. -/
structure DataFrameContainer where
  filename : String
  df : DataFrame
  filters : DataFilters
deriving Repr, DecidableEq

/-! ### Sort engine

`DataFrameContainer::sort` builds polars `SortMultipleOptions` with
`maintain_order(true)`, `multithreaded(true)`,
`order_descending(!ascending)` and `nulls_last(false)`, then calls
`DataFrame::sort` on one column.  The polars stable sort with these options
is embedded as a stable insertion sort of the rows under the key order of
the named column: value order (flipped when descending), with nulls placed
according to `nulls_last`.  -/

/-- Embedding of polars `SortMultipleOptions` (the fields set by the source). -/
structure SortMultipleOptions where
  maintain_order : Bool
  multithreaded : Bool
  order_descending : Bool
  nulls_last : Bool
deriving Repr, DecidableEq

/-- Key comparison used by the polars sort: nulls are placed first when
`nulls_last` is `false` and last when it is `true`, independent of the
descending flag; two non-null values compare by value order, flipped when
descending. -/
def cellLe (descending nulls_last : Bool) : Cell → Cell → Bool
  | none, none => true
  | none, some _ => !nulls_last
  | some _, none => nulls_last
  | some a, some b => if descending then decide (b ≤ a) else decide (a ≤ b)

/-- The sort key of a row: the cell in the sort column (missing treated as null). -/
def rowKey (idx : Nat) (r : Row) : Cell := r.getD idx none

/-- Row comparison induced by the sort column at index `idx`. -/
def RowLe (opts : SortMultipleOptions) (idx : Nat) (r1 r2 : Row) : Prop :=
  cellLe opts.order_descending opts.nulls_last (rowKey idx r1) (rowKey idx r2) = true

instance (opts : SortMultipleOptions) (idx : Nat) : DecidableRel (RowLe opts idx) :=
  fun r1 r2 =>
    instDecidableEqBool (cellLe opts.order_descending opts.nulls_last
      (rowKey idx r1) (rowKey idx r2)) true

theorem cellLe_total (o nl : Bool) (a b : Cell) :
    cellLe o nl a b = true ∨ cellLe o nl b a = true := by
  cases a <;> cases b <;> cases o <;> cases nl <;> simp [cellLe] <;> omega

theorem cellLe_trans (o nl : Bool) (a b c : Cell)
    (h1 : cellLe o nl a b = true) (h2 : cellLe o nl b c = true) :
    cellLe o nl a c = true := by
  cases a <;> cases b <;> cases c <;> cases o <;> cases nl <;>
    simp_all [cellLe] <;> omega

theorem cellLe_refl (o nl : Bool) (a : Cell) : cellLe o nl a a = true := by
  cases a <;> cases o <;> cases nl <;> simp [cellLe]

instance (opts : SortMultipleOptions) (idx : Nat) : IsTotal Row (RowLe opts idx) :=
  ⟨fun r1 r2 => cellLe_total opts.order_descending opts.nulls_last
    (rowKey idx r1) (rowKey idx r2)⟩

instance (opts : SortMultipleOptions) (idx : Nat) : IsTrans Row (RowLe opts idx) :=
  ⟨fun r1 r2 r3 h1 h2 => cellLe_trans opts.order_descending opts.nulls_last
    (rowKey idx r1) (rowKey idx r2) (rowKey idx r3) h1 h2⟩

/-- Embedding of `DataFrame::sort` on one column: a stable reordering of
the rows under the key order (the options request `maintain_order`).
Polars fails when the named column is absent. -/
def DataFrame.sortBy (df : DataFrame) (name : String) (opts : SortMultipleOptions) :
    Except String DataFrame :=
  match df.cols.indexOf? name with
  | none => Except.error ("unable to find column " ++ name)
  | some idx =>
      Except.ok { df with rows := List.insertionSort (RowLe opts idx) df.rows }

/-- The body of `DataFrameContainer::sort` once a sort column and direction
have been extracted: build the options, sort, update the filters. -/
def sortWith (self : DataFrameContainer) (filters : DataFilters)
    (col_name : String) (ascending : Bool) : Except String DataFrameContainer :=
  let sort_options : SortMultipleOptions :=
    { maintain_order := true, multithreaded := true,
      order_descending := !ascending, nulls_last := false }
  match self.df.sortBy col_name sort_options with
  | Except.error e => Except.error ("Polars sort error: " ++ e)
  | Except.ok df2 => Except.ok { self with df := df2, filters := filters }

/-- Embedding of `DataFrameContainer::sort` from src/data.rs. -/
def DataFrameContainer.sort (self : DataFrameContainer)
    (opt_filters : Option DataFilters) : Except String DataFrameContainer :=
  match opt_filters with
  | none => Except.ok self
  | some filters =>
    match filters.sort with
    | none => Except.ok self
    | some s =>
      match s with
      | SortState.NotSorted _ => Except.ok self
      | SortState.Ascending col_name => sortWith self filters col_name true
      | SortState.Descending col_name => sortWith self filters col_name false

/-- All nulls of the sort column occur after all non-null values. -/
def NullsLastColumn (idx : Nat) (rows : List Row) : Prop :=
  List.Pairwise (fun a b => rowKey idx a = none → rowKey idx b = none) rows

/-- All nulls of the sort column occur before all non-null values. -/
def NullsFirstColumn (idx : Nat) (rows : List Row) : Prop :=
  List.Pairwise (fun a b => rowKey idx b = none → rowKey idx a = none) rows

/-- The options `DataFrameContainer::sort` builds for a given direction. -/
def optsFor (ascending : Bool) : SortMultipleOptions :=
  { maintain_order := true, multithreaded := true,
    order_descending := !ascending, nulls_last := false }

theorem cellLe_none_right (o : Bool) (a : Cell)
    (h : cellLe o false a none = true) : a = none := by
  cases a <;> simp_all [cellLe]

theorem sort_active_eq (self : DataFrameContainer) (filters : DataFilters)
    (col : String) (idx : Nat) (asc : Bool)
    (hs : filters.sort = some (cond asc (SortState.Ascending col) (SortState.Descending col)))
    (hidx : self.df.cols.indexOf? col = some idx) :
    DataFrameContainer.sort self (some filters) = Except.ok
      { self with
        df := { self.df with
                rows := List.insertionSort (RowLe (optsFor asc) idx) self.df.rows },
        filters := filters } := by
  cases asc <;>
    simp only [cond] at hs <;>
    simp only [DataFrameContainer.sort, hs, sortWith, DataFrame.sortBy, hidx, optsFor]

/-- Sort input and output for the C1 counterexample: one orderable column
with a non-null value in row 0 and a null in row 1. -/
def c1filters : DataFilters :=
  { DataFilters.default with sort := some (SortState.Descending "a") }

def c1container : DataFrameContainer :=
  { filename := "t.parquet",
    df := { cols := ["a"], rows := [[some 1], [none]] },
    filters := DataFilters.default }

def c1out : DataFrameContainer :=
  { filename := "t.parquet",
    df := { cols := ["a"], rows := [[none], [some 1]] },
    filters := c1filters }

/-- C1 counterexample: sorting the container whose column "a" holds the
values 1 and null by `Descending "a"` succeeds and places the null row
before the non-null row, so the claim that nulls are always ordered last is
false on this concrete input. -/
theorem C1_counterexample :
    DataFrameContainer.sort c1container (some c1filters) = Except.ok c1out ∧
    ¬ NullsLastColumn 0 c1out.df.rows := by
  constructor
  · rfl
  · intro h
    have := List.rel_of_pairwise_cons h (List.mem_cons_self _ _)
    simp [rowKey] at this

/-- C1 (amended): for every container and every active sort spec (Ascending
or Descending) on an existing column, the sort succeeds and places all null
values of the sort column BEFORE all non-null values, regardless of the
direction (the source passes `nulls_last(false)` to polars). -/
theorem C1_sort_places_nulls_first (self : DataFrameContainer) (filters : DataFilters)
    (col : String) (idx : Nat)
    (hsort : filters.sort = some (SortState.Ascending col) ∨
             filters.sort = some (SortState.Descending col))
    (hidx : self.df.cols.indexOf? col = some idx) :
    ∃ out, DataFrameContainer.sort self (some filters) = Except.ok out ∧
      NullsFirstColumn idx out.df.rows := by
  have key : ∀ asc : Bool,
      filters.sort = some (cond asc (SortState.Ascending col) (SortState.Descending col)) →
      ∃ out, DataFrameContainer.sort self (some filters) = Except.ok out ∧
        NullsFirstColumn idx out.df.rows := by
    intro asc hs
    refine ⟨_, sort_active_eq self filters col idx asc hs hidx, ?_⟩
    have hsorted := List.sorted_insertionSort (RowLe (optsFor asc) idx) self.df.rows
    exact hsorted.imp (fun hab hb => by
      have : cellLe (optsFor asc).order_descending false (rowKey idx _) (rowKey idx _) = true := hab
      rw [hb] at this
      exact cellLe_none_right _ _ this)
  rcases hsort with h | h
  · exact key true h
  · exact key false h

/-- C1 witness input: the amended theorem applied to the concrete
container of the counterexample. -/
theorem C1_sort_places_nulls_first_witness :
    DataFrameContainer.sort c1container (some c1filters) = Except.ok c1out ∧
    NullsFirstColumn 0 c1out.df.rows := by
  obtain ⟨out, h1, h2⟩ :=
    C1_sort_places_nulls_first c1container c1filters "a" 0 (Or.inr rfl) (by decide)
  have hout : Except.ok (ε := String) out = Except.ok c1out := by
    rw [← h1]; rfl
  injection hout with hout
  exact ⟨hout ▸ h1, hout ▸ h2⟩

/-- C7: the sort is stable (two rows of the input with equal sort keys stay
in their original relative order, stated as preservation of two-element
sublists with equal keys) and idempotent (re-sorting the output with the
same filters returns the output itself, identical row order included). -/
theorem C7_sort_stable_idempotent (self : DataFrameContainer) (filters : DataFilters)
    (col : String) (idx : Nat) (out : DataFrameContainer)
    (hsort : filters.sort = some (SortState.Ascending col) ∨
             filters.sort = some (SortState.Descending col))
    (hidx : self.df.cols.indexOf? col = some idx)
    (hout : DataFrameContainer.sort self (some filters) = Except.ok out) :
    (∀ a b, rowKey idx a = rowKey idx b → List.Sublist [a, b] self.df.rows →
        List.Sublist [a, b] out.df.rows) ∧
    DataFrameContainer.sort out (some filters) = Except.ok out := by
  have key : ∀ asc : Bool,
      filters.sort = some (cond asc (SortState.Ascending col) (SortState.Descending col)) →
      (∀ a b, rowKey idx a = rowKey idx b → List.Sublist [a, b] self.df.rows →
          List.Sublist [a, b] out.df.rows) ∧
      DataFrameContainer.sort out (some filters) = Except.ok out := by
    intro asc hs
    have heq := (sort_active_eq self filters col idx asc hs hidx).symm.trans hout
    injection heq with heq
    subst heq
    constructor
    · intro a b hab hsub
      exact List.pair_sublist_insertionSort
        (show RowLe (optsFor asc) idx a b by
          unfold RowLe; rw [hab]; exact cellLe_refl _ _ _) hsub
    · have hidx2 : (DataFrame.mk self.df.cols
          (List.insertionSort (RowLe (optsFor asc) idx) self.df.rows)).cols.indexOf? col =
            some idx := hidx
      have h2 := sort_active_eq
        { self with
          df := { self.df with
                  rows := List.insertionSort (RowLe (optsFor asc) idx) self.df.rows },
          filters := filters } filters col idx asc hs hidx2
      rw [h2]
      have hfix : List.insertionSort (RowLe (optsFor asc) idx)
          (List.insertionSort (RowLe (optsFor asc) idx) self.df.rows) =
          List.insertionSort (RowLe (optsFor asc) idx) self.df.rows :=
        (List.sorted_insertionSort (RowLe (optsFor asc) idx) self.df.rows).insertionSort_eq
      rw [hfix]
  rcases hsort with h | h
  · exact key true h
  · exact key false h

/-- Concrete data for the C7 witness: two rows with equal sort keys. -/
def c7filters : DataFilters :=
  { DataFilters.default with sort := some (SortState.Descending "a") }

def c7self : DataFrameContainer :=
  { filename := "f.parquet",
    df := { cols := ["a"], rows := [[some 1], [some 1]] },
    filters := DataFilters.default }

def c7out : DataFrameContainer :=
  { filename := "f.parquet",
    df := { cols := ["a"], rows := [[some 1], [some 1]] },
    filters := c7filters }

/-- C7 witness: the stability and idempotence theorem applied to a concrete
container with two equal-keyed rows. -/
theorem C7_sort_stable_idempotent_witness :
    List.Sublist [[some 1], [some 1]] c7out.df.rows ∧
    DataFrameContainer.sort c7out (some c7filters) = Except.ok c7out := by
  have h := C7_sort_stable_idempotent c7self c7filters "a" 0 c7out
    (Or.inr rfl) (by decide) (by rfl)
  exact ⟨h.1 [some 1] [some 1] rfl (List.Sublist.refl _), h.2⟩

/-! ### CSV loading with delimiter auto-detection

The configured polars lazy CSV parse (encoding, header row, date parsing,
schema inference over 200 rows, ignored errors, the fixed null-token set)
is an external library call; it is abstracted as a function
`parse : Char → Except String DataFrame` from the tried delimiter to the
collected result for the file at hand.  The repository logic around it —
the fixed candidate order, the width check, first-success-wins, the final
error — is translated from `read_csv` / `attempt_read_csv` in src/data.rs. -/

/-- The fixed candidate delimiters of `read_csv`, in source order. -/
def csvDelimiters : List Char := [',', ';', '|', '\t']

/-- The error `read_csv` returns when every candidate is rejected. -/
def csvFailMsg : String :=
  "Failed to read CSV with common delimiters or inconsistent data."

/-- Embedding of `DataFrameContainer::attempt_read_csv`: run the configured
parse with the given delimiter, then reject the result when it has at most
one column. -/
def attempt_read_csv (parse : Char → Except String DataFrame) (delimiter : Char) :
    Except String DataFrame :=
  match parse delimiter with
  | Except.error e =>
      Except.error ("Error reading CSV with delimiter " ++ String.singleton delimiter
        ++ ": " ++ e)
  | Except.ok df =>
      if df.width ≤ 1 then
        Except.error ("Erro em delimiter: " ++ String.singleton delimiter)
      else
        Except.ok df

/-- The delimiter loop of `read_csv`: first successful attempt wins, errors
of rejected attempts are discarded. -/
def readCsvLoop (parse : Char → Except String DataFrame) :
    List Char → Except String DataFrame
  | [] => Except.error csvFailMsg
  | d :: ds =>
    match attempt_read_csv parse d with
    | Except.ok df => Except.ok df
    | Except.error _ => readCsvLoop parse ds

/-- Embedding of `DataFrameContainer::read_csv`. -/
def read_csv (parse : Char → Except String DataFrame) : Except String DataFrame :=
  readCsvLoop parse csvDelimiters

/-- A candidate delimiter is accepted: its trial parse succeeds and yields
more than one column. -/
def Accepts (parse : Char → Except String DataFrame) (d : Char) : Prop :=
  match parse d with
  | Except.ok df => 1 < df.width
  | Except.error _ => False

instance (parse : Char → Except String DataFrame) (d : Char) :
    Decidable (Accepts parse d) :=
  match h : parse d with
  | Except.ok df => decidable_of_iff (1 < df.width) (by simp [Accepts, h])
  | Except.error e => isFalse (by simp [Accepts, h])

theorem attempt_ok_iff (parse : Char → Except String DataFrame) (d : Char)
    (df : DataFrame) :
    attempt_read_csv parse d = Except.ok df ↔
      parse d = Except.ok df ∧ 1 < df.width := by
  unfold attempt_read_csv
  cases h : parse d with
  | error e => simp
  | ok df2 =>
    by_cases hw : df2.width ≤ 1
    · simp only [if_pos hw]
      constructor
      · intro hc; cases hc
      · rintro ⟨hdf, hlt⟩
        injection hdf with hdf
        subst hdf
        exact absurd hlt (by omega)
    · simp only [if_neg hw]
      constructor
      · intro hc; injection hc with hc; subst hc; exact ⟨rfl, by omega⟩
      · rintro ⟨hdf, _⟩; injection hdf with hdf; rw [hdf]

theorem attempt_error_of_not_accepts (parse : Char → Except String DataFrame)
    (d : Char) (h : ¬ Accepts parse d) :
    ∀ df, attempt_read_csv parse d ≠ Except.ok df := by
  intro df hc
  rw [attempt_ok_iff] at hc
  apply h
  unfold Accepts
  rw [hc.1]
  exact hc.2

theorem readCsvLoop_error_iff (parse : Char → Except String DataFrame)
    (ds : List Char) :
    readCsvLoop parse ds = Except.error csvFailMsg ↔
      ∀ d ∈ ds, ¬ Accepts parse d := by
  induction ds with
  | nil => simp [readCsvLoop]
  | cons d ds ih =>
    unfold readCsvLoop
    cases h : attempt_read_csv parse d with
    | ok df =>
      simp only []
      constructor
      · intro hc; cases hc
      · intro hall
        exact absurd h (attempt_error_of_not_accepts parse d
          (hall d (List.mem_cons_self _ _)) df)
    | error e =>
      simp only []
      rw [ih]
      constructor
      · intro hall
        intro d2 hd2
        rcases List.mem_cons.mp hd2 with h2 | h2
        · subst h2
          intro hacc
          unfold Accepts at hacc
          cases hp : parse d2 with
          | error e2 => rw [hp] at hacc; exact hacc
          | ok df2 =>
            rw [hp] at hacc
            have : attempt_read_csv parse d2 = Except.ok df2 :=
              (attempt_ok_iff parse d2 df2).mpr ⟨hp, hacc⟩
            rw [this] at h; cases h
        · exact hall d2 h2
      · intro hall d2 hd2
        exact hall d2 (List.mem_cons_of_mem _ hd2)

theorem readCsvLoop_first (parse : Char → Except String DataFrame)
    (l1 l2 : List Char) (d : Char) (df : DataFrame)
    (hprev : ∀ e ∈ l1, ¬ Accepts parse e)
    (hok : parse d = Except.ok df) (hw : 1 < df.width) :
    readCsvLoop parse (l1 ++ d :: l2) = Except.ok df := by
  induction l1 with
  | nil =>
    simp only [List.nil_append]
    unfold readCsvLoop
    rw [(attempt_ok_iff parse d df).mpr ⟨hok, hw⟩]
  | cons e l1 ih =>
    simp only [List.cons_append]
    unfold readCsvLoop
    cases h : attempt_read_csv parse e with
    | ok df2 =>
      exact absurd h (attempt_error_of_not_accepts parse e
        (hprev e (List.mem_cons_self _ _)) df2)
    | error msg =>
      exact ih (fun e2 he2 => hprev e2 (List.mem_cons_of_mem _ he2))

/-- C2: delimiter auto-detection tries the candidates in the fixed order
comma, semicolon, pipe, tab; a candidate is accepted exactly when its trial
parse succeeds with more than one column; the first accepted candidate's
frame is returned; and the load fails with the fixed no-delimiter-matched
error exactly when all four candidates are rejected. -/
theorem C2_csv_delimiter_detection (parse : Char → Except String DataFrame) :
    csvDelimiters = [',', ';', '|', '\t'] ∧
    (∀ d df, attempt_read_csv parse d = Except.ok df ↔
        (parse d = Except.ok df ∧ 1 < df.width)) ∧
    (∀ l1 d l2 df, csvDelimiters = l1 ++ d :: l2 →
        (∀ e ∈ l1, ¬ Accepts parse e) →
        parse d = Except.ok df → 1 < df.width →
        read_csv parse = Except.ok df) ∧
    (read_csv parse = Except.error csvFailMsg ↔
        ∀ d ∈ csvDelimiters, ¬ Accepts parse d) := by
  refine ⟨rfl, attempt_ok_iff parse, ?_, readCsvLoop_error_iff parse csvDelimiters⟩
  intro l1 d l2 df hsplit hprev hok hw
  unfold read_csv
  rw [hsplit]
  exact readCsvLoop_first parse l1 l2 d df hprev hok hw

/-- Concrete parse oracle for the C2 witness: comma fails, semicolon
succeeds with two columns, the remaining candidates also succeed. -/
def c2df : DataFrame := { cols := ["x", "y"], rows := [] }

def c2parse : Char → Except String DataFrame :=
  fun d => if d = ',' then Except.error "comma failed" else Except.ok c2df

/-- C2 witness: on a parse oracle that rejects comma and accepts semicolon
with two columns, the loader returns the semicolon frame. -/
theorem C2_csv_delimiter_detection_witness :
    read_csv c2parse = Except.ok c2df := by
  refine (C2_csv_delimiter_detection c2parse).2.2.1 [','] ';' ['|', '\t'] c2df rfl ?_
    (by rfl) (by decide)
  intro e he hacc
  have he2 : e = ',' := by
    rcases List.mem_singleton.mp he with h
    exact h
  subst he2
  unfold Accepts at hacc
  simp [c2parse] at hacc

/-! ### Extension extraction and format dispatch -/

/-- Split a character list on a separator character, as `str::split` does
for a one-character separator. -/
def splitOnSep (sep : Char) : List Char → List (List Char)
  | [] => [[]]
  | c :: cs =>
    if c = sep then [] :: splitOnSep sep cs
    else
      match splitOnSep sep cs with
      | [] => [[c]]
      | g :: gs => (c :: g) :: gs

/-- ASCII lowercasing of one character (`to_lowercase` restricted to the
ASCII range; the recognized extensions are ASCII). -/
def asciiLower (c : Char) : Char :=
  if 'A' ≤ c ∧ c ≤ 'Z' then Char.ofNat (c.toNat + 32) else c

/-- Embedding of `Path::file_name` for unix-style path strings: the last
component after dropping empty and `.` components, unless the path has no
components or terminates in a parent-directory component. -/
def fileNameChars (path : String) : Option (List Char) :=
  match ((splitOnSep '/' path.data).filter
      (fun c => decide (c ≠ [] ∧ c ≠ ['.']))).getLast? with
  | none => none
  | some c => if c = ['.', '.'] then none else some c

/-- Embedding of `Path::extension` on a file name: the portion after the
final dot; absent when there is no dot, or when the name begins with a dot
and contains no further dot. -/
def extensionOfChars (name : List Char) : Option (List Char) :=
  let parts := splitOnSep '.' name
  if parts.length ≤ 1 then none
  else if name.head? = some '.' ∧ parts.length = 2 then none
  else parts.getLast?

/-- Embedding of `get_extension` from src/lib.rs: the lowercase file
extension of the path, or `none` when absent.  A total function: absence
of an extension is the non-error result `none`. -/
def get_extension (filename : String) : Option String :=
  ((fileNameChars filename).bind extensionOfChars).map
    (fun cs => String.mk (cs.map asciiLower))

/-- Embedding of `DataFrameContainer::load_data` from src/data.rs.  Shell
expansion (`shellexpand::full`), the parquet reader and the configured
polars CSV engine are external calls; they enter as the parameters
`expand`, `read_parquet` and `parse` (the latter per file name, feeding
the delimiter auto-detection of `read_csv`). -/
def load_data (expand : String → Except String String)
    (read_parquet : String → Except String DataFrame)
    (parse : String → Char → Except String DataFrame)
    (filename : String) : Except String DataFrameContainer :=
  match expand filename with
  | Except.error e => Except.error e
  | Except.ok fname =>
    Except.map
      (fun df => (⟨fname, df, DataFilters.default⟩ : DataFrameContainer))
      (match get_extension fname with
       | some "parquet" => read_parquet fname
       | some "csv" => read_csv (parse fname)
       | _ => Except.error ("Unknown file type: " ++ fname))

theorem load_data_eq (expand : String → Except String String)
    (read_parquet : String → Except String DataFrame)
    (parse : String → Char → Except String DataFrame)
    (filename fname : String) (hexp : expand filename = Except.ok fname) :
    load_data expand read_parquet parse filename =
      Except.map
        (fun df => (⟨fname, df, DataFilters.default⟩ : DataFrameContainer))
        (match get_extension fname with
         | some "parquet" => read_parquet fname
         | some "csv" => read_csv (parse fname)
         | _ => Except.error ("Unknown file type: " ++ fname)) := by
  unfold load_data
  rw [hexp]

/-- C9: after shell expansion, loading dispatches strictly on the
lowercased extension — "parquet" routes to the parquet reader, "csv" to
the delimited-text reader with auto-detection — and any other extension
(or none) yields the unknown-file-type error with a result independent of
both readers, so no reader (and no file input) is consulted.  Extension
extraction itself is the total function `get_extension`. -/
theorem C9_extension_dispatch (expand : String → Except String String)
    (rp rp2 : String → Except String DataFrame)
    (p p2 : String → Char → Except String DataFrame)
    (filename fname : String)
    (hexp : expand filename = Except.ok fname) :
    (get_extension fname = some "parquet" →
      load_data expand rp p filename =
        Except.map (fun df => (⟨fname, df, DataFilters.default⟩ : DataFrameContainer))
          (rp fname)) ∧
    (get_extension fname = some "csv" →
      load_data expand rp p filename =
        Except.map (fun df => (⟨fname, df, DataFilters.default⟩ : DataFrameContainer))
          (read_csv (p fname))) ∧
    (get_extension fname ≠ some "parquet" → get_extension fname ≠ some "csv" →
      load_data expand rp p filename = Except.error ("Unknown file type: " ++ fname) ∧
      load_data expand rp p filename = load_data expand rp2 p2 filename) := by
  refine ⟨?_, ?_, ?_⟩
  · intro h
    rw [load_data_eq expand rp p filename fname hexp, h]
    rfl
  · intro h
    rw [load_data_eq expand rp p filename fname hexp, h]
    rfl
  · intro h1 h2
    have hdisp : ∀ (rp3 : String → Except String DataFrame)
        (p3 : String → Char → Except String DataFrame),
        (match get_extension fname with
         | some "parquet" => rp3 fname
         | some "csv" => read_csv (p3 fname)
         | _ => Except.error ("Unknown file type: " ++ fname)) =
          Except.error ("Unknown file type: " ++ fname) := by
      intro rp3 p3
      split
      · next heq => exact absurd heq h1
      · next heq => exact absurd heq h2
      · rfl
    constructor
    · rw [load_data_eq expand rp p filename fname hexp, hdisp rp p]
      rfl
    · rw [load_data_eq expand rp p filename fname hexp,
        load_data_eq expand rp2 p2 filename fname hexp, hdisp rp p, hdisp rp2 p2]

/-- Identity shell expansion, for witnesses. -/
def idExpand : String → Except String String := fun s => Except.ok s

def c9df : DataFrame := { cols := ["x"], rows := [] }

def c9rp : String → Except String DataFrame := fun _ => Except.ok c9df

def c9parse : String → Char → Except String DataFrame := fun _ _ => Except.error "no"

/-- C9 witness: a path with uppercase extension "PARQUET" routes to the
parquet reader, and a path without extension yields the unknown-file-type
error. -/
theorem C9_extension_dispatch_witness :
    load_data idExpand c9rp c9parse "data.PARQUET" =
      Except.map (fun df => (⟨"data.PARQUET", df, DataFilters.default⟩ : DataFrameContainer))
        (c9rp "data.PARQUET") ∧
    load_data idExpand c9rp c9parse "noext" =
      Except.error ("Unknown file type: " ++ "noext") := by
  constructor
  · exact (C9_extension_dispatch idExpand c9rp c9rp c9parse c9parse
      "data.PARQUET" "data.PARQUET" rfl).1 (by decide)
  · exact ((C9_extension_dispatch idExpand c9rp c9rp c9parse c9parse
      "noext" "noext" rfl).2.2 (by decide) (by decide)).1

/-- Embedding of `DataFrameContainer::load_data_with_sql` from src/data.rs.
The explicit single-delimiter polars CSV parse and the SQL context
(`SQLContext::new`, `register`, `execute`, `collect`) are external calls,
abstracted as `parse` (file name, delimiter) and `sqlExec` (table name,
registered frame, query text). -/
def load_data_with_sql (expand : String → Except String String)
    (read_parquet : String → Except String DataFrame)
    (parse : String → Char → Except String DataFrame)
    (sqlExec : String → DataFrame → String → Except String DataFrame)
    (filters : DataFilters) : Except String DataFrameContainer :=
  match filters.filename with
  | none => Except.error "No filename"
  | some filename0 =>
  match filters.table_name with
  | none => Except.error "No Table Name"
  | some table_name =>
  match filters.csv_delimiter with
  | none => Except.error "No CSV Delimiter"
  | some csv_delimiter =>
  match filters.query with
  | none => Except.error "No query provided"
  | some query =>
  match expand filename0 with
  | Except.error e => Except.error e
  | Except.ok filename =>
    match (match get_extension filename with
           | some "parquet" => read_parquet filename
           | some "csv" =>
               if csv_delimiter.utf8ByteSize = 1 then
                 parse filename (csv_delimiter.get ⟨0⟩)
               else
                 Except.error "Error: The CSV delimiter must be a single character."
           | _ => Except.error ("Unknown file type: " ++ filename)) with
    | Except.error e => Except.error e
    | Except.ok df =>
      match sqlExec table_name df query with
      | Except.error e => Except.error e
      | Except.ok sql_df =>
          Except.ok { filename := filename, df := sql_df, filters := filters }

/-- C10: the column-count check applies only to the auto-detection path.
With an explicit single-character delimiter on a csv file,
`load_data_with_sql` hands whatever frame the parse yields — single-column
included — straight to the SQL step, while `attempt_read_csv` rejects the
very same parse result whenever it has at most one column. -/
theorem C10_explicit_delimiter_no_width_check
    (expand : String → Except String String)
    (rp : String → Except String DataFrame)
    (parse : String → Char → Except String DataFrame)
    (sqlExec : String → DataFrame → String → Except String DataFrame)
    (filters : DataFilters) (f0 t d q filename : String) (df : DataFrame)
    (hf : filters.filename = some f0) (ht : filters.table_name = some t)
    (hd : filters.csv_delimiter = some d) (hq : filters.query = some q)
    (hexp : expand f0 = Except.ok filename)
    (hext : get_extension filename = some "csv")
    (hlen : d.utf8ByteSize = 1)
    (hparse : parse filename (d.get ⟨0⟩) = Except.ok df) :
    load_data_with_sql expand rp parse sqlExec filters =
      (match sqlExec t df q with
       | Except.error e => Except.error e
       | Except.ok sql_df =>
           Except.ok { filename := filename, df := sql_df, filters := filters }) ∧
    (df.width ≤ 1 →
      attempt_read_csv (parse filename) (d.get ⟨0⟩) =
        Except.error ("Erro em delimiter: " ++ String.singleton (d.get ⟨0⟩))) := by
  constructor
  · unfold load_data_with_sql
    simp only [hf, ht, hd, hq, hexp, hext]
    rw [if_pos hlen, hparse]
  · intro hw
    unfold attempt_read_csv
    rw [hparse]
    exact if_pos hw

/-- Concrete data for the C10 witness: a single-column parse result that
the auto-detecting loader rejects but the explicit-delimiter loader
accepts. -/
def c10df : DataFrame := { cols := ["only"], rows := [] }

def c10filters : DataFilters :=
  { filename := some "data.csv", table_name := some "tbl",
    csv_delimiter := some ";", query := some "SELECT 1", sort := none }

def c10parse : String → Char → Except String DataFrame :=
  fun _ _ => Except.ok c10df

def c10sql : String → DataFrame → String → Except String DataFrame :=
  fun _ df _ => Except.ok df

/-- C10 witness: with delimiter ";" on a csv path, the explicit-delimiter
load succeeds on a single-column frame that `attempt_read_csv` rejects. -/
theorem C10_explicit_delimiter_no_width_check_witness :
    load_data_with_sql idExpand c9rp c10parse c10sql c10filters =
      Except.ok { filename := "data.csv", df := c10df, filters := c10filters } ∧
    attempt_read_csv (c10parse "data.csv") ';' =
      Except.error ("Erro em delimiter: " ++ String.singleton ';') := by
  have h := C10_explicit_delimiter_no_width_check idExpand c9rp c10parse c10sql
    c10filters "data.csv" "tbl" ";" "SELECT 1" "data.csv" c10df
    rfl rfl rfl rfl rfl (by decide) (by decide) rfl
  exact ⟨h.1, h.2 (by decide)⟩

/-! ### Sort-state transitions on header clicks -/

/-- Embedding of `SelectionDepth::inc` for `SortState` (src/traits.rs). -/
def SortState.inc : SortState → SortState
  | SortState.NotSorted col => SortState.Descending col
  | SortState.Ascending col => SortState.Descending col
  | SortState.Descending col => SortState.Ascending col

/-- Embedding of `SelectionDepth::reset` for `SortState` (src/traits.rs). -/
def SortState.reset : SortState → SortState
  | SortState.NotSorted col => SortState.NotSorted col
  | SortState.Ascending col => SortState.NotSorted col
  | SortState.Descending col => SortState.NotSorted col

/-- The state change of `ExtraInteractions::sort_button` (src/traits.rs)
when the button is clicked: whether or not the label matches the current
value, the slot is overwritten with the incremented label. -/
def sort_button_click (current_value : Option SortState)
    (selected_value : SortState) : Option SortState :=
  let selected : Bool :=
    match current_value with
    | some value => decide (value = selected_value)
    | none => false
  if selected then
    some selected_value.inc
  else
    -- the source calls value.reset() here and discards the returned value
    some selected_value.inc

theorem sort_button_click_eq (cur : Option SortState) (sel : SortState) :
    sort_button_click cur sel = some sel.inc := by
  unfold sort_button_click
  cases cur <;> simp

/-- Embedding of `is_sorted_column` from src/components.rs. -/
def is_sorted_column (sorted_col : Option SortState) (column_name : String) : Bool :=
  match sorted_col with
  | some s =>
    match s with
    | SortState.Ascending sorted => decide (sorted = column_name)
    | SortState.Descending sorted => decide (sorted = column_name)
    | SortState.NotSorted _ => false
  | none => false

/-- One header click on the named column inside `render_table`
(src/components.rs): the button label is the active sort state when this
column is the sorted one, `NotSorted` otherwise, and the click feeds the
label to the sort button. -/
def headerClick (sorted_column : Option SortState) (column_name : String) :
    Option SortState :=
  let column_label :=
    match sorted_column with
    | some s =>
        if is_sorted_column (some s) column_name then s
        else SortState.NotSorted column_name
    | none => SortState.NotSorted column_name
  sort_button_click sorted_column column_label

theorem inc_ne_notSorted (s : SortState) (c : String) :
    s.inc ≠ SortState.NotSorted c := by
  cases s <;> simp [SortState.inc]

/-- C6: click transitions per column — from an inactive column a click
yields Descending, further clicks on the same column alternate
Ascending/Descending and never return to NotSorted; clicking a different
column while one is active makes Descending of the new column the single
active sort spec. -/
theorem C6_sort_click_transitions (A B : String) (hAB : A ≠ B) :
    headerClick (some (SortState.NotSorted A)) A = some (SortState.Descending A) ∧
    headerClick none A = some (SortState.Descending A) ∧
    headerClick (some (SortState.Descending A)) A = some (SortState.Ascending A) ∧
    headerClick (some (SortState.Ascending A)) A = some (SortState.Descending A) ∧
    (∀ cur col, headerClick cur A ≠ some (SortState.NotSorted col)) ∧
    headerClick (some (SortState.Descending A)) B = some (SortState.Descending B) ∧
    headerClick (some (SortState.Ascending A)) B = some (SortState.Descending B) := by
  refine ⟨?_, ?_, ?_, ?_, ?_, ?_, ?_⟩
  · simp [headerClick, is_sorted_column, sort_button_click_eq, SortState.inc]
  · simp [headerClick, sort_button_click_eq, SortState.inc]
  · simp [headerClick, is_sorted_column, sort_button_click_eq, SortState.inc]
  · simp [headerClick, is_sorted_column, sort_button_click_eq, SortState.inc]
  · intro cur col
    unfold headerClick
    rw [sort_button_click_eq]
    intro hc
    injection hc with hc
    exact inc_ne_notSorted _ _ hc
  · simp [headerClick, is_sorted_column, sort_button_click_eq, SortState.inc, hAB]
  · simp [headerClick, is_sorted_column, sort_button_click_eq, SortState.inc, hAB]

/-- C6 witness: the transition theorem applied to the concrete columns
"a" and "b". -/
theorem C6_sort_click_transitions_witness :
    headerClick (some (SortState.NotSorted "a")) "a" =
      some (SortState.Descending "a") ∧
    headerClick (some (SortState.Descending "a")) "b" =
      some (SortState.Descending "b") := by
  have h := C6_sort_click_transitions "a" "b" (by decide)
  exact ⟨h.1, h.2.2.2.2.2.1⟩

/-! ### Filter validation before dispatch -/

/-- Whitespace test for ASCII trimming, as `str::trim` treats it for the
characters that occur in the validated fields. -/
def isWhite (c : Char) : Bool :=
  c = ' ' ∨ c = '\t' ∨ c = '\n' ∨ c = '\r'

/-- Embedding of `str::trim`: drop whitespace from both ends. -/
def strTrim (s : String) : String :=
  String.mk (((s.data.dropWhile isWhite).reverse.dropWhile isWhite).reverse)

/-- The Apply-button validation inside `DataFilters::render_filter`
(src/data.rs): a click produces a request only when every required field
is non-blank; the existing sort state is preserved. -/
def applyClick (filename table_name csv_delimiter query : String)
    (sort : Option SortState) : Option DataFilters :=
  if ¬ strTrim filename = "" ∧ ¬ strTrim table_name = "" ∧
     ¬ strTrim csv_delimiter = "" ∧ ¬ strTrim query = "" then
    some ⟨some filename, some table_name, some csv_delimiter, some query, sort⟩
  else
    none

/-- Embedding of the dataflow of `DataFilters::render_filter`: when any of
the four fields is absent the pane bails out early (the `?` operator)
producing no request; otherwise a click of the Apply button validates the
current contents.  The result is what the caller receives for dispatch. -/
def render_filter (self : DataFilters) (clicked : Bool) : Option DataFilters :=
  match self.filename, self.table_name, self.csv_delimiter, self.query with
  | some filename, some table_name, some csv_delimiter, some query =>
      if clicked then applyClick filename table_name csv_delimiter query self.sort
      else none
  | _, _, _, _ => none

/-- The Query pane wiring in `PolarsViewApp::update` (src/layout.rs): a
background load-with-query task is dispatched exactly when `render_filter`
returns `Some`. -/
def queryPaneDispatches (self : DataFilters) (clicked : Bool) : Bool :=
  (render_filter self clicked).isSome

/-- A field is missing or blank: absent, or trimming to the empty string. -/
def BlankField : Option String → Prop
  | none => True
  | some s => strTrim s = ""

theorem applyClick_blank (f t d q : String) (st : Option SortState)
    (h : strTrim f = "" ∨ strTrim t = "" ∨ strTrim d = "" ∨ strTrim q = "") :
    applyClick f t d q st = none := by
  unfold applyClick
  rw [if_neg]
  rintro ⟨h1, h2, h3, h4⟩
  rcases h with h | h | h | h
  · exact h1 h
  · exact h2 h
  · exact h3 h
  · exact h4 h

/-- C5: a load-with-query request with any of source path, table name,
delimiter or query text absent or blank is rejected inside the query pane —
`render_filter` returns no request — so no background task is ever
dispatched for it; in particular a blank query text never dispatches. -/
theorem C5_missing_params_never_dispatch (self : DataFilters) (clicked : Bool)
    (h : BlankField self.filename ∨ BlankField self.table_name ∨
         BlankField self.csv_delimiter ∨ BlankField self.query) :
    render_filter self clicked = none ∧
    queryPaneDispatches self clicked = false := by
  obtain ⟨f, t, d, q, st⟩ := self
  have hrf : render_filter ⟨f, t, d, q, st⟩ clicked = none := by
    cases f with
    | none => rfl
    | some f =>
      cases t with
      | none => rfl
      | some t =>
        cases d with
        | none => rfl
        | some d =>
          cases q with
          | none => rfl
          | some q =>
            cases clicked with
            | false => rfl
            | true =>
              show applyClick f t d q st = none
              apply applyClick_blank
              simp only [BlankField] at h
              exact h
  exact ⟨hrf, by unfold queryPaneDispatches; rw [hrf]; rfl⟩

/-- C5 witness: a pane whose query text is blank produces no request and
dispatches nothing. -/
theorem C5_missing_params_never_dispatch_witness :
    render_filter ⟨some "data.csv", some "AllData", some ";", some "", none⟩ true =
      none ∧
    queryPaneDispatches ⟨some "data.csv", some "AllData", some ";", some "", none⟩
      true = false :=
  C5_missing_params_never_dispatch ⟨some "data.csv", some "AllData", some ";",
    some "", none⟩ true (Or.inr (Or.inr (Or.inr (show strTrim "" = "" by decide))))

/-! ### Orchestrator state

`PolarsViewApp` tracks one optional receiver (`pipe`).  A dispatch is
identified by the id of the channel it creates; what `try_recv` would
report for a given receiver at poll time enters as the oracle `recv`. -/

instance {ε α : Type} [DecidableEq ε] [DecidableEq α] : DecidableEq (Except ε α) :=
  fun a b =>
    match a, b with
    | Except.ok x, Except.ok y => decidable_of_iff (x = y) (by simp)
    | Except.error x, Except.error y => decidable_of_iff (x = y) (by simp)
    | Except.ok _, Except.error _ => isFalse (fun h => by cases h)
    | Except.error _, Except.ok _ => isFalse (fun h => by cases h)

/-- The closed set of popover variants of src/layout.rs: the error notice
and the settings panel. -/
inductive Popover where
  | error (message : String)
  | settings
deriving Repr, DecidableEq

/-- Stand-in for the parquet `FileMetadata`, whose contents the
orchestration logic never inspects. -/
structure FileMetadata where
  tag : Nat
deriving Repr, DecidableEq

/-- Embedding of the state of `PolarsViewApp` (src/layout.rs); the tokio
runtime is external, task handles and the receiver are identified by the
id of the dispatch that created them. -/
structure PolarsViewApp where
  table : Option DataFrameContainer
  data_filters : DataFilters
  metadata : Option FileMetadata
  popover : Option Popover
  pipe : Option Nat
  tasks : List Nat
deriving Repr, DecidableEq

/-- What `Receiver::try_recv` reports for a receiver at poll time. -/
inductive TryRecvResult where
  | value (res : Except String DataFrameContainer)
  | empty
  | closed
deriving Repr, DecidableEq

/-- The filters derived from a successfully delivered container
(src/layout.rs lines 93-98): fresh defaults for its filename, preserving a
delivered csv delimiter. -/
def reconciledFilters (data : DataFrameContainer) : DataFilters :=
  match data.filters.csv_delimiter with
  | some delimiter =>
      { DataFilters.new data.filename with csv_delimiter := some delimiter }
  | none => DataFilters.new data.filename

/-- Embedding of `PolarsViewApp::check_data_pending` (src/layout.rs).  The
metadata load `FileMetadata::from_filename(..).ok()` is external and
enters as `loadMeta`.  Returns the updated state and the still-pending
flag. -/
def check_data_pending (loadMeta : String → Option FileMetadata)
    (recv : Nat → TryRecvResult) (app : PolarsViewApp) : PolarsViewApp × Bool :=
  match app.pipe with
  | none => (app, false)
  | some rx =>
    let app2 := { app with pipe := none }
    match recv rx with
    | TryRecvResult.value (Except.ok data) =>
        ({ app2 with
            data_filters := reconciledFilters data,
            metadata := loadMeta data.filename,
            table := some data }, false)
    | TryRecvResult.value (Except.error msg) =>
        ({ app2 with popover := some (Popover.error msg) }, false)
    | TryRecvResult.empty => ({ app2 with pipe := some rx }, true)
    | TryRecvResult.closed =>
        ({ app2 with
            popover := some
              (Popover.error "Data operation terminated without response.") },
          false)

/-- Embedding of `PolarsViewApp::run_data_future` (src/layout.rs): prune
finished tasks, create a fresh channel (identified by `newId`), store its
receiving end — unconditionally replacing any previous one — and track the
spawned task. -/
def run_data_future (isFinished : Nat → Bool) (newId : Nat)
    (app : PolarsViewApp) : PolarsViewApp :=
  { app with
      tasks := (app.tasks.filter (fun t => !(isFinished t))) ++ [newId],
      pipe := some newId }

theorem check_pending_empty (loadMeta : String → Option FileMetadata)
    (recv : Nat → TryRecvResult) (app : PolarsViewApp) (rx : Nat)
    (hpipe : app.pipe = some rx) (h : recv rx = TryRecvResult.empty) :
    check_data_pending loadMeta recv app = (app, true) := by
  obtain ⟨tb, fl, md, po, pi, tk⟩ := app
  have hp : pi = some rx := hpipe
  subst hp
  simp only [check_data_pending]
  rw [h]

theorem check_pending_ok (loadMeta : String → Option FileMetadata)
    (recv : Nat → TryRecvResult) (app : PolarsViewApp) (rx : Nat)
    (data : DataFrameContainer) (hpipe : app.pipe = some rx)
    (h : recv rx = TryRecvResult.value (Except.ok data)) :
    check_data_pending loadMeta recv app =
      ({ app with
          pipe := none,
          data_filters := reconciledFilters data,
          metadata := loadMeta data.filename,
          table := some data }, false) := by
  obtain ⟨tb, fl, md, po, pi, tk⟩ := app
  have hp : pi = some rx := hpipe
  subst hp
  simp only [check_data_pending]
  rw [h]

theorem check_pending_err (loadMeta : String → Option FileMetadata)
    (recv : Nat → TryRecvResult) (app : PolarsViewApp) (rx : Nat)
    (msg : String) (hpipe : app.pipe = some rx)
    (h : recv rx = TryRecvResult.value (Except.error msg)) :
    check_data_pending loadMeta recv app =
      ({ app with pipe := none, popover := some (Popover.error msg) }, false) := by
  obtain ⟨tb, fl, md, po, pi, tk⟩ := app
  have hp : pi = some rx := hpipe
  subst hp
  simp only [check_data_pending]
  rw [h]

theorem check_pending_closed (loadMeta : String → Option FileMetadata)
    (recv : Nat → TryRecvResult) (app : PolarsViewApp) (rx : Nat)
    (hpipe : app.pipe = some rx) (h : recv rx = TryRecvResult.closed) :
    check_data_pending loadMeta recv app =
      ({ app with
          pipe := none,
          popover := some
            (Popover.error "Data operation terminated without response.") },
        false) := by
  obtain ⟨tb, fl, md, po, pi, tk⟩ := app
  have hp : pi = some rx := hpipe
  subst hp
  simp only [check_data_pending]
  rw [h]

/-- C3: the pending receiver is a single optional slot; dispatching a new
operation unconditionally replaces it with the new channel, and the next
poll is entirely determined by that channel — two recv oracles that agree
on the new channel but may say anything about the superseded one yield
identical reconciliation, so the superseded result can never be
delivered. -/
theorem C3_single_pending_replacement (app : PolarsViewApp) (oldId newId : Nat)
    (isFinished : Nat → Bool) (loadMeta : String → Option FileMetadata)
    (recv recv2 : Nat → TryRecvResult)
    (hpipe : app.pipe = some oldId) (hne : oldId ≠ newId)
    (hagree : recv newId = recv2 newId) :
    (run_data_future isFinished newId app).pipe = some newId ∧
    check_data_pending loadMeta recv (run_data_future isFinished newId app) =
      check_data_pending loadMeta recv2 (run_data_future isFinished newId app) := by
  refine ⟨rfl, ?_⟩
  unfold check_data_pending
  simp only [run_data_future]
  rw [hagree]

/-- Concrete orchestrator state for witnesses: a pending operation on
channel 0. -/
def cApp : PolarsViewApp :=
  { table := none, data_filters := DataFilters.default, metadata := none,
    popover := none, pipe := some 0, tasks := [0] }

def cMeta : String → Option FileMetadata := fun _ => none

/-- Recv oracle where the superseded channel 0 delivered a success and the
new channel 1 is still empty. -/
def c3recv : Nat → TryRecvResult :=
  fun n => if n = 0 then TryRecvResult.value (Except.ok c1container)
           else TryRecvResult.empty

/-- Recv oracle where the superseded channel 0 reports nothing at all. -/
def c3recv2 : Nat → TryRecvResult := fun _ => TryRecvResult.empty

/-- C3 witness: after dispatching operation 1 over the pending operation 0,
the poll result does not depend on what operation 0 would have
delivered. -/
theorem C3_single_pending_replacement_witness :
    (run_data_future (fun _ => false) 1 cApp).pipe = some 1 ∧
    check_data_pending cMeta c3recv (run_data_future (fun _ => false) 1 cApp) =
      check_data_pending cMeta c3recv2 (run_data_future (fun _ => false) 1 cApp) :=
  C3_single_pending_replacement cApp 0 1 (fun _ => false) cMeta c3recv c3recv2
    rfl (by decide) rfl

/-- C4: with a pending operation, the non-blocking poll has exactly three
outcomes — empty channel: state unchanged and still pending with the
receiver retained; delivered value: the result is reconciled (success
replaces table, filters and metadata; failure surfaces a notice) and the
pending operation is cleared; closed channel: the fixed
"Data operation terminated without response." notice is surfaced and the
pending operation is cleared. -/
theorem C4_poll_outcomes (loadMeta : String → Option FileMetadata)
    (recv : Nat → TryRecvResult) (app : PolarsViewApp) (rx : Nat)
    (hpipe : app.pipe = some rx) :
    (recv rx = TryRecvResult.empty →
      check_data_pending loadMeta recv app = (app, true)) ∧
    (∀ data, recv rx = TryRecvResult.value (Except.ok data) →
      check_data_pending loadMeta recv app =
        ({ app with
            pipe := none,
            data_filters := reconciledFilters data,
            metadata := loadMeta data.filename,
            table := some data }, false)) ∧
    (∀ msg, recv rx = TryRecvResult.value (Except.error msg) →
      check_data_pending loadMeta recv app =
        ({ app with pipe := none, popover := some (Popover.error msg) }, false)) ∧
    (recv rx = TryRecvResult.closed →
      check_data_pending loadMeta recv app =
        ({ app with
            pipe := none,
            popover := some
              (Popover.error "Data operation terminated without response.") },
          false)) :=
  ⟨fun h => check_pending_empty loadMeta recv app rx hpipe h,
   fun data h => check_pending_ok loadMeta recv app rx data hpipe h,
   fun msg h => check_pending_err loadMeta recv app rx msg hpipe h,
   fun h => check_pending_closed loadMeta recv app rx hpipe h⟩

/-- Recv oracle delivering a failure on channel 0. -/
def c4recvErr : Nat → TryRecvResult :=
  fun _ => TryRecvResult.value (Except.error "boom")

/-- C4 witness: the poll theorem applied to a concrete pending state whose
channel delivered a failure. -/
theorem C4_poll_outcomes_witness :
    check_data_pending cMeta c4recvErr cApp =
      ({ cApp with pipe := none, popover := some (Popover.error "boom") },
        false) :=
  (C4_poll_outcomes cMeta c4recvErr cApp 0 rfl).2.2.1 "boom" rfl

/-- C8: when the delivered result is an error or the channel is closed,
the poll only surfaces an error notice and clears the pending receiver;
the current table, the filter parameters and the metadata are exactly what
they were before the poll. -/
theorem C8_error_frame_condition (loadMeta : String → Option FileMetadata)
    (recv : Nat → TryRecvResult) (app : PolarsViewApp) (rx : Nat) (msg : String)
    (hpipe : app.pipe = some rx)
    (h : recv rx = TryRecvResult.value (Except.error msg) ∨
         (recv rx = TryRecvResult.closed ∧
          msg = "Data operation terminated without response.")) :
    (check_data_pending loadMeta recv app).1.table = app.table ∧
    (check_data_pending loadMeta recv app).1.data_filters = app.data_filters ∧
    (check_data_pending loadMeta recv app).1.metadata = app.metadata ∧
    (check_data_pending loadMeta recv app).1.popover = some (Popover.error msg) ∧
    (check_data_pending loadMeta recv app).1.pipe = none := by
  rcases h with h | ⟨h, hmsg⟩
  · rw [check_pending_err loadMeta recv app rx msg hpipe h]
    exact ⟨rfl, rfl, rfl, rfl, rfl⟩
  · subst hmsg
    rw [check_pending_closed loadMeta recv app rx hpipe h]
    exact ⟨rfl, rfl, rfl, rfl, rfl⟩

/-- Recv oracle reporting a closed channel. -/
def c8recvClosed : Nat → TryRecvResult := fun _ => TryRecvResult.closed

/-- C8 witness: the frame condition applied to a concrete pending state
whose channel closed without a value. -/
theorem C8_error_frame_condition_witness :
    (check_data_pending cMeta c8recvClosed cApp).1.table = cApp.table ∧
    (check_data_pending cMeta c8recvClosed cApp).1.data_filters = cApp.data_filters ∧
    (check_data_pending cMeta c8recvClosed cApp).1.metadata = cApp.metadata ∧
    (check_data_pending cMeta c8recvClosed cApp).1.popover =
      some (Popover.error "Data operation terminated without response.") ∧
    (check_data_pending cMeta c8recvClosed cApp).1.pipe = none :=
  C8_error_frame_condition cMeta c8recvClosed cApp 0
    "Data operation terminated without response." rfl (Or.inr ⟨rfl, rfl⟩)

end PolarsView
